import Mathlib

/-!
# Verification of the nanobind type-descriptor model (`include/nanobind/nb_class.h`)

A shallow embedding of the type-registration descriptor model of
`include/nanobind/nb_class.h`: the persistent/transient flag words
(`type_flags`, `type_init_flags`), the descriptor records (`type_data`,
`type_init_data`, `enum_init_data`, `enum_supplement`), the trait-application
overload set (`type_extra_apply`), the `class_` and `enum_` builder
constructors, `init<...>` / `init_implicit<...>` initializers, and `def_rw`.

Conventions of the embedding:
* C++ template parameters and compile-time capability probes
  (`std::is_copy_constructible_v<T>`, `std::is_trivially_destructible_v<T>`,
  `detail::has_shared_from_this_v<T>`, ...) become explicit `Bool`/`Nat`
  parameters collected in a `TypeProbe` record.
* Function-pointer fields become `Option` values; a field that the source
  never writes stays `none` ("not installed"), and the explicit C++ writes
  `= nullptr` also yield `none`.
* Opaque runtime identities (scope objects, `std::type_info` addresses,
  strings, callbacks, slot tables) are modelled as `Nat` identifiers.
* A C++ `static_assert` (a build-time contract failure) is modelled by an
  `Option` result: `none` means the build is rejected.
* A C++ `= delete`-d overload (selecting it is a build failure) is likewise
  `none` in the dispatching application function.
-/

namespace NbClass

/-! ## Flag words (`type_flags`, `type_init_flags`, lines 14-79)

Each constant is the bit mask from the source; the flag word of a descriptor
is a `Nat` and flags are combined with `|||` and tested with `&&&`, exactly
as the C++ code manipulates the packed 24-bit `flags` field. -/

def is_destructible : Nat := 1 <<< 0

def is_copy_constructible : Nat := 1 <<< 1

def is_move_constructible : Nat := 1 <<< 2

def has_destruct : Nat := 1 <<< 4

def has_copy : Nat := 1 <<< 5

def has_move : Nat := 1 <<< 6

def has_implicit_conversions : Nat := 1 <<< 7

def is_python_type : Nat := 1 <<< 8

def is_final : Nat := 1 <<< 9

def has_dynamic_attr : Nat := 1 <<< 10

def intrusive_ptr : Nat := 1 <<< 11

def has_shared_from_this : Nat := 1 <<< 12

def weak_py : Nat := 1 <<< 13

def has_supplement : Nat := 1 <<< 19

def has_doc : Nat := 1 <<< 20

def has_base : Nat := 1 <<< 21

def has_base_py : Nat := 1 <<< 22

def has_type_slots : Nat := 1 <<< 23

/-- `(flags & mask) != 0`: the test the source performs on the flag word. -/
def hasFlag (flags mask : Nat) : Bool := flags &&& mask != 0

/-! ## Hook values

The lifecycle function pointers a `class_` constructor can install are the
wrapper instantiations `wrap_copy<T>` / `wrap_move<T>` / `wrap_destruct<T>`
(lines 205-215); we keep them as tagged values carrying the native type
identity so that distinct installations are distinguishable. -/

inductive Hook where
  | wrapCopy (t : Nat)
  | wrapMove (t : Nat)
  | wrapDestruct (t : Nat)
deriving DecidableEq, Repr

/-- The slot-computing callback field `type_slots_callback`: either a
user-supplied callback (via the `type_slots_callback` trait) or the enum
machinery's preparation routine `detail::nb_enum_prepare`. -/
inductive SlotsCallback where
  | user (f : Nat)
  | nbEnumPrepare
deriving DecidableEq, Repr

/-- `struct type_data` (lines 85-104): the permanent descriptor. The fields
`alias_chain`, `type_py`, `implicit`, `implicit_py` are owned by the external
type-registry/conversion collaborators and are never written in this header,
so they are omitted from the embedding. -/
structure type_data where
  size : Nat
  align : Nat
  flags : Nat
  name : Nat
  type : Nat
  destruct : Option Hook := none
  copy : Option Hook := none
  move : Option Hook := none
  set_self_py : Option Nat := none
  keep_shared_from_this_alive : Option Unit := none
  set_weak_py : Option Nat := none
deriving DecidableEq, Repr

/-- `struct type_init_data : type_data` (lines 107-115): the transient
creation-time descriptor. -/
structure type_init_data extends type_data where
  scope : Nat
  base : Option Nat := none
  base_py : Option Nat := none
  doc : Option Nat := none
  type_slots : Option Nat := none
  type_slots_callback : Option SlotsCallback := none
  supplement : Option Nat := none
deriving DecidableEq, Repr

/-- `struct enum_supplement` (lines 174-178), with its C++ default member
initializers. -/
structure enum_supplement where
  is_signed : Bool := false
  entries : Option Nat := none
  scope : Option Nat := none
deriving DecidableEq, Repr

/-- `struct enum_init_data : type_init_data` (lines 181-184). -/
structure enum_init_data extends type_init_data where
  is_signed : Bool := false
  is_arithmetic : Bool := false
deriving DecidableEq, Repr

/-! ## The trait catalogue and `type_extra_apply` overloads (lines 117-203) -/

/-- Compile-time facts about a supplement payload type `T` that the
`supplement<T>` trait checks with `static_assert` (lines 163-171). -/
structure supplement_info where
  size : Nat
  trivially_default_constructible : Bool
  align_le_ptr : Bool
deriving DecidableEq, Repr

/-- The closed trait catalogue accepted by `type_extra_apply` overloads. -/
inductive Extra where
  | baseHandle (h : Nat)
  | docStr (s : Nat)
  | typeSlots (v : Nat)
  | typeSlotsCallback (f : Nat)
  | intrusivePtr (set_self : Nat)
  | weakPy (set_weak : Nat)
  | finalMarker
  | dynamicAttr
  | supplementOf (i : supplement_info)
  | isArithmetic
deriving DecidableEq, Repr

/-- `type_extra_apply(type_init_data &, const handle &)` (lines 117-120). -/
def apply_base_handle (t : type_init_data) (h : Nat) : type_init_data :=
  { t with flags := t.flags ||| has_base_py, base_py := some h }

/-- `type_extra_apply(type_init_data &, const char *doc)` (lines 122-125). -/
def apply_doc (t : type_init_data) (s : Nat) : type_init_data :=
  { t with flags := t.flags ||| has_doc, doc := some s }

/-- `type_extra_apply(type_init_data &, type_slots)` (lines 127-133): when
the `has_type_slots` flag is not yet set, set it and null the callback
variant; then store the fixed slot table. -/
def apply_type_slots (t : type_init_data) (v : Nat) : type_init_data :=
  let t' :=
    if t.flags &&& has_type_slots = 0 then
      { t with flags := t.flags ||| has_type_slots, type_slots_callback := none }
    else t
  { t' with type_slots := some v }

/-- `type_extra_apply(type_init_data &, type_slots_callback)` (lines
135-141): the symmetric variant, nulling the fixed-table field instead. -/
def apply_type_slots_callback (t : type_init_data) (f : Nat) : type_init_data :=
  let t' :=
    if t.flags &&& has_type_slots = 0 then
      { t with flags := t.flags ||| has_type_slots, type_slots := none }
    else t
  { t' with type_slots_callback := some (SlotsCallback.user f) }

/-- `type_extra_apply(type_init_data &, intrusive_ptr<T>)` (lines 143-147). -/
def apply_intrusive_ptr (t : type_init_data) (f : Nat) : type_init_data :=
  { t with flags := t.flags ||| intrusive_ptr, set_self_py := some f }

/-- `type_extra_apply(type_init_data &, weak_py<T>)` (lines 149-153). -/
def apply_weak_py (t : type_init_data) (f : Nat) : type_init_data :=
  { t with flags := t.flags ||| weak_py, set_weak_py := some f }

/-- `type_extra_apply(type_init_data &, is_final)` (lines 155-157). -/
def apply_is_final (t : type_init_data) : type_init_data :=
  { t with flags := t.flags ||| is_final }

/-- `type_extra_apply(type_init_data &, dynamic_attr)` (lines 159-161). -/
def apply_dynamic_attr (t : type_init_data) : type_init_data :=
  { t with flags := t.flags ||| has_dynamic_attr }

/-- The two `static_assert`s of `type_extra_apply(type_init_data &,
supplement<T>)` (lines 165-168): the payload must be trivially default
constructible (POD) and its alignment must not exceed pointer alignment. -/
def supplement_asserts (i : supplement_info) : Bool :=
  i.trivially_default_constructible && i.align_le_ptr

/-- The effect of `type_extra_apply(type_init_data &, supplement<T>)`
(lines 169-170), once its `static_assert`s are satisfied. -/
def apply_supplement (t : type_init_data) (i : supplement_info) : type_init_data :=
  { t with flags := t.flags ||| has_supplement ||| is_final,
           supplement := some i.size }

/-- Overload resolution of `type_extra_apply` on a plain `type_init_data`:
each trait dispatches to its handler; a failed `static_assert` (supplement)
or a trait with no matching overload (`is_arithmetic` exists only for
`enum_init_data`) is a build failure, i.e. `none`. -/
def type_extra_apply : type_init_data → Extra → Option type_init_data
  | t, .baseHandle h => some (apply_base_handle t h)
  | t, .docStr s => some (apply_doc t s)
  | t, .typeSlots v => some (apply_type_slots t v)
  | t, .typeSlotsCallback f => some (apply_type_slots_callback t f)
  | t, .intrusivePtr f => some (apply_intrusive_ptr t f)
  | t, .weakPy f => some (apply_weak_py t f)
  | t, .finalMarker => some (apply_is_final t)
  | t, .dynamicAttr => some (apply_dynamic_attr t)
  | t, .supplementOf i =>
      if supplement_asserts i then some (apply_supplement t i) else none
  | _, .isArithmetic => none

/-- Overload resolution of `type_extra_apply` on an `enum_init_data`
(lines 186-203): `handle`, `intrusive_ptr`, `weak_py`, `supplement`,
`is_final` and `type_slots_callback` overloads are `= delete`-d (build
failure, `none`); `is_arithmetic` sets the arithmetic flag (lines 186-188);
the remaining traits fall through to the `type_init_data` overloads acting
on the base subobject. -/
def enum_extra_apply : enum_init_data → Extra → Option enum_init_data
  | _, .baseHandle _ => none
  | d, .docStr s => some { d with totype_init_data := apply_doc d.totype_init_data s }
  | d, .typeSlots v => some { d with totype_init_data := apply_type_slots d.totype_init_data v }
  | _, .typeSlotsCallback _ => none
  | _, .intrusivePtr _ => none
  | _, .weakPy _ => none
  | _, .finalMarker => none
  | d, .dynamicAttr => some { d with totype_init_data := apply_dynamic_attr d.totype_init_data }
  | _, .supplementOf _ => none
  | d, .isArithmetic => some { d with is_arithmetic := true }

/-! ## The `class_` builder constructor (lines 368-456) -/

/-- The compile-time capability probe the `class_` constructor performs on
the bound native type `T` (and its alias type), lines 376-451: sizes,
alignment, the `std::type_info` identity, whether a distinct base was
supplied, and the copy/move/destruct/shared-ownership capabilities. -/
structure TypeProbe where
  size_alias : Nat
  align_alias : Nat
  type_id : Nat
  base_id : Option Nat := none
  copy_constructible : Bool := false
  trivially_copy_constructible : Bool := false
  move_constructible : Bool := false
  trivially_move_constructible : Bool := false
  destructible : Bool := false
  trivially_destructible : Bool := false
  shared_from_this : Bool := false
deriving DecidableEq, Repr

/-- The body of `class_::class_(scope, name, extra...)` (lines 393-453)
before trait application: populate size/align/name/scope/type, record a
distinct base, probe copy/move/destruct capabilities installing wrapper
hooks only for the non-trivial ones, and install the shared-ownership
keep-alive hook when `T` derives from `enable_shared_from_this`. -/
def class_init (scope name : Nat) (p : TypeProbe) : type_init_data :=
  let d : type_init_data :=
    { flags := 0, align := p.align_alias, size := p.size_alias,
      name := name, scope := scope, type := p.type_id }
  let d :=
    match p.base_id with
    | some b => { d with base := some b, flags := d.flags ||| has_base }
    | none => d
  let d :=
    if p.copy_constructible then
      let d := { d with flags := d.flags ||| is_copy_constructible }
      if !p.trivially_copy_constructible then
        { d with flags := d.flags ||| has_copy,
                 copy := some (Hook.wrapCopy p.type_id) }
      else d
    else d
  let d :=
    if p.move_constructible then
      let d := { d with flags := d.flags ||| is_move_constructible }
      if !p.trivially_move_constructible then
        { d with flags := d.flags ||| has_move,
                 move := some (Hook.wrapMove p.type_id) }
      else d
    else d
  let d :=
    if p.destructible then
      let d := { d with flags := d.flags ||| is_destructible }
      if !p.trivially_destructible then
        { d with flags := d.flags ||| has_destruct,
                 destruct := some (Hook.wrapDestruct p.type_id) }
      else d
    else d
  if p.shared_from_this then
    { d with flags := d.flags ||| has_shared_from_this,
             keep_shared_from_this_alive := some () }
  else d

/-! ## The shared-ownership keep-alive hook (lines 437-450) -/

/-- One entry of a host object's auxiliary keep-alive list: an owned
resource together with the release callback run at host-object teardown
(the `keep_alive(self, payload, deleter)` collaborator call). -/
structure keep_alive_entry where
  resource : Nat
  release : Nat
deriving DecidableEq, Repr

/-- Identity of the deleter lambda `[](void *p) noexcept { delete ... }`
passed to `keep_alive` on line 444-446. -/
def shared_ptr_deleter : Nat := 0

/-- A host (Python) object as the keep-alive hook sees it: the result of
`inst_ptr<T>(self)->weak_from_this().lock()` (a strong reference when the
weak-ownership slot is engaged, otherwise nothing), and the auxiliary
keep-alive list attached to the host object. -/
structure host_object where
  weak_slot : Option Nat
  keep_alive_list : List keep_alive_entry
deriving DecidableEq, Repr

/-- The lambda stored in `type_data::keep_shared_from_this_alive` (lines
437-450): lock the weak-ownership slot; on success append one owned
reference (with its deleter) to the host object's keep-alive list and
return `true`; on failure return `false` without touching anything. -/
def keep_shared_from_this_alive_hook (self : host_object) : Bool × host_object :=
  match self.weak_slot with
  | some sp =>
      (true, { self with
                 keep_alive_list :=
                   self.keep_alive_list ++ [⟨sp, shared_ptr_deleter⟩] })
  | none => (false, self)

/-! ## `init<Args...>::execute` (lines 306-329) -/

/-- Which in-place construction the `__init__` lambda performs on the
freshly allocated payload `v.p`. -/
inductive constructed where
  | native
  | aliasTy
deriving DecidableEq, Repr

/-- The `__init__` lambda registered by `init<Args...>::execute` (lines
315-327): under `if constexpr (!std::is_same_v<Type, Alias> &&
std::is_constructible_v<Type, Args...>)`, a runtime query
`nb_inst_python_derived` decides between constructing `Type` and falling
through to the `Alias` construction; otherwise `Alias` is constructed
unconditionally. Both placements target the same payload pointer `v.p`. -/
def init_execute (type_eq_alias constructible python_derived : Bool) : constructed :=
  if !type_eq_alias && constructible then
    if !python_derived then .native else .aliasTy
  else .aliasTy

/-! ## `init_implicit<Arg>::execute` (lines 331-366) and the
Implicit Conversion Registry -/

/-- The conversion predicate registered by `init_implicit<Arg>`: the lambda
wrapping `make_caster<Arg>().from_python(src, convert, cleanup)`
(lines 358-362), tagged with the `Arg` caster it delegates to. -/
inductive conv_pred where
  | casterAttempt (arg_caster : Nat)
deriving DecidableEq, Repr

/-- One entry of the Implicit Conversion Registry: the native target-type
identity it is keyed by, and the predicate. -/
structure conv_entry where
  target : Nat
  pred : conv_pred
deriving DecidableEq, Repr

/-- Modelled from the spec: `detail::implicitly_convertible(pred, target)`
lives in the type-registry implementation, outside `src/`. Per the spec's
Implicit Conversion Registry, it appends one `(source, predicate)` entry to
the per-target-type ordered list, probed later in registration order. -/
def implicitly_convertible (reg : List conv_entry) (target : Nat)
    (p : conv_pred) : List conv_entry :=
  reg ++ [⟨target, p⟩]

/-- The registry side of `init_implicit<Arg>::execute` (lines 354-364):
`if constexpr (!detail::is_class_caster_v<Caster>)` the construction-attempt
predicate is registered keyed by `&typeid(Type)`; when `Arg`'s
`make_caster` is the class caster, registration is skipped. -/
def init_implicit_execute (type_id arg_caster : Nat)
    (arg_is_class_caster : Bool) (reg : List conv_entry) : List conv_entry :=
  if !arg_is_class_caster then
    implicitly_convertible reg type_id (.casterAttempt arg_caster)
  else reg

/-- Modelled from the spec: `make_caster<Arg>().from_python(src, convert,
cleanup)` is caster code outside `src/`. Per the spec, the
construction-attempt predicate tries to build a temporary target value from
the host value; on success it may register the temporary on the
caller-supplied cleanup list and reports success; on failure it performs no
mutation and reports failure. -/
def conv_predicate_run (convertible : Bool) (temp : Nat)
    (cleanup : List Nat) : Bool × List Nat :=
  if convertible then (true, cleanup ++ [temp]) else (false, cleanup)

/-! ## `def_rw` (lines 537-553) -/

/-- How the synthesized setter binds the incoming value: `D &&` (move
assignment) or `const D &` (forced copy assignment). -/
inductive setter_kind where
  | moveAssign
  | copyAssign
deriving DecidableEq, Repr

/-- The accessor pair synthesized by `def_rw`: a getter
`[p](const T &c) -> const D & { return c.*p; }` (a read-only reference to
the member) and a setter `[p](T &c, Q value) { c.*p = (Q) value; }` whose
binding `Q` is `const D &` exactly when `D`'s `make_caster` is the base
(class-binding) caster, and `D &&` otherwise. -/
structure rw_accessors where
  getter_const_ref : Bool
  getter_member : Nat
  setter_member : Nat
  setter : setter_kind
deriving DecidableEq, Repr

/-- `class_::def_rw(name, D C::*p, ...)` (lines 537-553): the
`static_assert(std::is_base_of_v<C, T>)` requires the member to belong to
`T` or one of its bases (else the build fails, `none`); the synthesized
getter/setter pair is installed via `def_prop_rw`. -/
def def_rw (member_of_t_or_base : Bool) (d_is_base_caster : Bool)
    (member : Nat) : Option rw_accessors :=
  if member_of_t_or_base then
    some { getter_const_ref := true, getter_member := member,
           setter_member := member,
           setter := if d_is_base_caster then .copyAssign else .moveAssign }
  else none

/-! ## `class_` build-time checks (lines 376-390) -/

/-- One extra template argument `Ts...` of `class_<T, Ts...>`, as the
builder's inputs describe them (spec 4.3: at most one native base type and
at most one alias type): either a proper base of `T` or a proper alias
(subclass) of `T`. -/
inductive tparam where
  | properBase
  | properAlias
deriving DecidableEq, Repr

/-- `detail::extract<T, detail::is_base, Ts...>` (lines 217-236) returns the
first `Ts` entry that is a base of `T`, else `T` itself; this computes
whether `Base != T`. -/
def extract_base_ne_t : List tparam → Bool
  | [] => false
  | .properBase :: _ => true
  | .properAlias :: ts => extract_base_ne_t ts

/-- `detail::extract<T, detail::is_alias, Ts...>` returns the first `Ts`
entry deriving from `T`, else `T` itself; this computes `Alias != T`. -/
def extract_alias_ne_t : List tparam → Bool
  | [] => false
  | .properAlias :: _ => true
  | .properBase :: ts => extract_alias_ne_t ts

/-- The four `static_assert`s of `class_` (lines 376-390):
`sizeof(Alias) < (1 << 24)`, `alignof(Alias) < (1 << 8)`,
`sizeof...(Ts) == !is_same_v<Base, T> + !is_same_v<Alias, T>`, and
`detail::is_base_caster_v<detail::make_caster<Type>>` (the type is not
already claimed by a type caster). -/
def class_static_checks (size_alias align_alias : Nat) (ts : List tparam)
    (t_is_base_caster : Bool) : Bool :=
  decide (size_alias < 1 <<< 24) && decide (align_alias < 1 <<< 8) &&
  (ts.length = (if extract_base_ne_t ts then 1 else 0) +
               (if extract_alias_ne_t ts then 1 else 0) : Bool) &&
  t_is_base_caster

/-- Registration through the `class_` constructor: the `static_assert`s
must pass (else the build fails) and then each supplied trait is applied in
argument order to the probed initial descriptor (line 453), any failing
trait application failing the build. -/
def class_build (scope name : Nat) (p : TypeProbe) (ts : List tparam)
    (t_is_base_caster : Bool) (extra : List Extra) : Option type_init_data :=
  if class_static_checks p.size_alias p.align_alias ts t_is_base_caster then
    extra.foldlM type_extra_apply (class_init scope name p)
  else none

/-! ## The `enum_` builder constructor (lines 603-645) -/

/-- Stands for `sizeof(detail::enum_supplement)` (line 624); the concrete
value is platform specific (24 bytes on LP64). -/
def sizeof_enum_supplement : Nat := 24

/-- The body of `enum_::enum_(scope, name, extra...)` (lines 610-628)
before trait application: the fixed flag word (supplement + type-slots
active, copy/move/destruct trivial capabilities, final), size/align/name/
type/scope, the supplement byte size, a null fixed slot table, the
`nb_enum_prepare` slot callback, and the underlying type's signedness. -/
def enum_init (scope name size_t align_t type_id : Nat)
    (signed : Bool) : enum_init_data :=
  { flags := has_supplement ||| has_type_slots ||| is_copy_constructible |||
             is_move_constructible ||| is_destructible ||| is_final,
    align := align_t, size := size_t, name := name, type := type_id,
    supplement := some sizeof_enum_supplement,
    scope := scope,
    type_slots := none,
    type_slots_callback := some SlotsCallback.nbEnumPrepare,
    is_signed := signed }

/-- The full `enum_` constructor (lines 610-637): build the initial
descriptor, apply the traits in argument order (any deleted overload
failing the build), hand the descriptor to `nb_type_new`, then write the
signedness and scope into the (zero-initialized) supplement region. -/
def enum_build (scope name size_t align_t type_id : Nat) (signed : Bool)
    (extra : List Extra) : Option (enum_init_data × enum_supplement) :=
  match extra.foldlM enum_extra_apply
      (enum_init scope name size_t align_t type_id signed) with
  | some d => some (d, { is_signed := d.is_signed, entries := none,
                         scope := some d.scope })
  | none => none

/-- The flag word the `class_` constructor accumulates (the `d.flags |=`
sequence of lines 396-451), as a standalone function of the probe; used to
state the closed form of `class_init`. -/
def class_flags (p : TypeProbe) : Nat :=
  let f : Nat := 0
  let f :=
    match p.base_id with
    | some _ => f ||| has_base
    | none => f
  let f :=
    if p.copy_constructible then
      let f := f ||| is_copy_constructible
      if !p.trivially_copy_constructible then f ||| has_copy else f
    else f
  let f :=
    if p.move_constructible then
      let f := f ||| is_move_constructible
      if !p.trivially_move_constructible then f ||| has_move else f
    else f
  let f :=
    if p.destructible then
      let f := f ||| is_destructible
      if !p.trivially_destructible then f ||| has_destruct else f
    else f
  if p.shared_from_this then f ||| has_shared_from_this else f

/-- A concrete probe for a shared-ownership-capable type, used by the
witness of the keep-alive theorem. -/
def probe_shared : TypeProbe :=
  { size_alias := 16, align_alias := 8, type_id := 3,
    destructible := true, shared_from_this := true }

/-- A concrete descriptor with the has-type-slots flag clear, used by the
witness of the slots-trait theorem. -/
def sample_init_data : type_init_data :=
  { flags := 0, align := 4, size := 8, name := 1, scope := 2, type := 3 }

/-- How many of the extra template arguments are the given kind (how many
base types / alias types were supplied). -/
def count_tp (x : tparam) : List tparam → Nat
  | [] => 0
  | y :: ts => (if y = x then 1 else 0) + count_tp x ts

/-- The properties an enum descriptor under construction keeps from its
initialization (lines 614-628) through every allowed trait application:
the flag bits, the untouched hook/callback/supplement/scope/signedness
fields. -/
def enum_descriptor_inv (scope : Nat) (signed : Bool)
    (d : enum_init_data) : Prop :=
  hasFlag d.flags has_supplement = true ∧
  hasFlag d.flags has_type_slots = true ∧
  hasFlag d.flags is_copy_constructible = true ∧
  hasFlag d.flags is_move_constructible = true ∧
  hasFlag d.flags is_destructible = true ∧
  hasFlag d.flags is_final = true ∧
  hasFlag d.flags has_copy = false ∧
  hasFlag d.flags has_move = false ∧
  hasFlag d.flags has_destruct = false ∧
  d.copy = none ∧ d.move = none ∧ d.destruct = none ∧
  d.type_slots_callback = some SlotsCallback.nbEnumPrepare ∧
  d.supplement = some sizeof_enum_supplement ∧
  d.scope = scope ∧ d.is_signed = signed

/-! ## Helper lemmas about the flag word -/

theorem or_zero_iff (a b : Nat) : a ||| b = 0 ↔ a = 0 ∧ b = 0 := by
  constructor
  · intro h
    have hab : ∀ i, a.testBit i = false ∧ b.testBit i = false := by
      intro i
      have := congrArg (fun n => n.testBit i) h
      simpa using this
    exact ⟨Nat.eq_of_testBit_eq (fun i => by simp [(hab i).1]),
           Nat.eq_of_testBit_eq (fun i => by simp [(hab i).2])⟩
  · rintro ⟨rfl, rfl⟩
    rfl

theorem hasFlag_true_iff (f m : Nat) : hasFlag f m = true ↔ f &&& m ≠ 0 := by
  simp [hasFlag]

theorem hasFlag_false_iff (f m : Nat) : hasFlag f m = false ↔ f &&& m = 0 := by
  simp [hasFlag]

theorem hasFlag_or (x y m : Nat) :
    hasFlag (x ||| y) m = (hasFlag x m || hasFlag y m) := by
  rw [Bool.eq_iff_iff]
  simp only [hasFlag_true_iff, Bool.or_eq_true, Nat.and_distrib_right,
    ne_eq, or_zero_iff, not_and_or]

theorem hasFlag_or_self (x m : Nat) (h : m ≠ 0) : hasFlag (x ||| m) m = true := by
  rw [hasFlag_or]
  have hm : hasFlag m m = true := by
    rw [hasFlag_true_iff, Nat.and_self]
    exact h
  simp [hm]

theorem hasFlag_mono (x y m : Nat) (h : hasFlag x m = true) :
    hasFlag (x ||| y) m = true := by
  simp [hasFlag_or, h]

theorem hasFlag_or_none (x y m : Nat) (h : hasFlag x m = false)
    (h2 : hasFlag y m = false) : hasFlag (x ||| y) m = false := by
  simp [hasFlag_or, h, h2]

/-- Closed form of the `class_` constructor body: each descriptor field as
a direct function of the probe. Proved by exhausting the probe's capability
booleans. -/
theorem class_init_eq (scope name : Nat) (p : TypeProbe) :
    class_init scope name p =
      { size := p.size_alias, align := p.align_alias, flags := class_flags p,
        name := name, type := p.type_id,
        copy := if p.copy_constructible && !p.trivially_copy_constructible
                then some (Hook.wrapCopy p.type_id) else none,
        move := if p.move_constructible && !p.trivially_move_constructible
                then some (Hook.wrapMove p.type_id) else none,
        destruct := if p.destructible && !p.trivially_destructible
                then some (Hook.wrapDestruct p.type_id) else none,
        keep_shared_from_this_alive :=
          if p.shared_from_this then some () else none,
        scope := scope, base := p.base_id } := by
  rcases p with ⟨sa, aa, tid, bid, cc, tcc, mc, tmc, dc, tdc, sft⟩
  cases bid <;> cases cc <;> cases tcc <;> cases mc <;> cases tmc <;>
    cases dc <;> cases tdc <;> cases sft <;> rfl

/-! ## Claim theorems -/

/-- Claim C2: the initializer registered by `init<Args...>` constructs `T`
in place exactly when the instance is not a host-language-extended
(Python-derived) derivative, `T` is constructible from the given arguments,
and `T` differs from the alias type; in every other case it constructs the
alias type in place on the same payload. -/
theorem init_constructs_native_iff
    (type_eq_alias constructible python_derived : Bool) :
    (init_execute type_eq_alias constructible python_derived = .native ↔
      (python_derived = false ∧ constructible = true ∧ type_eq_alias = false)) ∧
    (init_execute type_eq_alias constructible python_derived = .aliasTy ↔
      ¬(python_derived = false ∧ constructible = true ∧ type_eq_alias = false)) := by
  cases type_eq_alias <;> cases constructible <;> cases python_derived <;> decide

/-- Claim C8: on an enum descriptor under construction, the base-handle,
intrusive-ownership, weak-reference, supplement, final-marker and
slot-computing-callback traits are rejected at build time (the overloads
are deleted), while the arithmetic-operator-enable marker succeeds and sets
the descriptor's arithmetic flag. -/
theorem enum_trait_acceptance (d : enum_init_data) (h s f w : Nat)
    (i : supplement_info) :
    enum_extra_apply d (.baseHandle h) = none ∧
    enum_extra_apply d (.intrusivePtr s) = none ∧
    enum_extra_apply d (.weakPy w) = none ∧
    enum_extra_apply d (.supplementOf i) = none ∧
    enum_extra_apply d .finalMarker = none ∧
    enum_extra_apply d (.typeSlotsCallback f) = none ∧
    enum_extra_apply d .isArithmetic = some { d with is_arithmetic := true } :=
  ⟨rfl, rfl, rfl, rfl, rfl, rfl, rfl⟩

/-- Claim C10: applying the supplement-reservation trait also sets the
is-final flag (alongside has-supplement), even though the final marker was
never applied explicitly. -/
theorem supplement_sets_final (t : type_init_data) (i : supplement_info) :
    hasFlag (apply_supplement t i).flags is_final = true ∧
    hasFlag (apply_supplement t i).flags has_supplement = true := by
  constructor
  · exact hasFlag_or_self _ _ (by decide)
  · exact hasFlag_mono _ _ _ (hasFlag_or_self _ _ (by decide))

/-- Claim C6: `def_rw` registration is accepted exactly when the member
belongs to `T` or one of its bases (build-time `static_assert`); the
synthesized getter returns a read-only (const) reference to the member, and
the setter move-assigns the value in, except when the member type's binding
is the reference-semantics class binding (its `make_caster` is the base
caster), in which case a copy is forced. -/
theorem def_rw_accessors (member_of_t_or_base d_is_base_caster : Bool)
    (m : Nat) :
    ((def_rw member_of_t_or_base d_is_base_caster m).isSome =
      member_of_t_or_base) ∧
    (∀ acc, def_rw member_of_t_or_base d_is_base_caster m = some acc →
      acc.getter_const_ref = true ∧ acc.getter_member = m ∧
      acc.setter_member = m ∧
      (acc.setter = .copyAssign ↔ d_is_base_caster = true) ∧
      (acc.setter = .moveAssign ↔ d_is_base_caster = false)) := by
  cases member_of_t_or_base <;> cases d_is_base_caster <;> simp [def_rw]

/-- Claim C7: `init_implicit<Arg>` appends to the Implicit Conversion
Registry one construction-attempt predicate keyed by `T`'s native type
identity, and this registration is skipped exactly when `Arg`'s
`make_caster` is the class caster (i.e. `Arg` is itself bound through the
competing class-binding caster); the predicate reports failure with no
observable side effect on the cleanup list when construction fails. -/
theorem init_implicit_registry (type_id arg_caster : Nat) (b : Bool)
    (reg : List conv_entry) (temp : Nat) (cleanup : List Nat) :
    (b = true → init_implicit_execute type_id arg_caster b reg = reg) ∧
    (b = false → init_implicit_execute type_id arg_caster b reg =
      reg ++ [⟨type_id, .casterAttempt arg_caster⟩]) ∧
    conv_predicate_run false temp cleanup = (false, cleanup) ∧
    (conv_predicate_run true temp cleanup).1 = true := by
  cases b <;>
    simp [init_implicit_execute, implicitly_convertible, conv_predicate_run]

/-- Claim C1: for every type registered through the class builder, each
hook flag (`has_copy`/`has_move`/`has_destruct`) is set iff the
corresponding function pointer was installed; a pointer is installed iff
the capability exists and the native operation is not trivial; and the
capability flag (`is_copy_constructible`/`is_move_constructible`/
`is_destructible`) is set iff the capability exists — so a trivial
operation gets neither hook flag nor pointer while keeping its capability
flag. -/
theorem class_hook_flag_invariant (scope name : Nat) (p : TypeProbe) :
    (hasFlag (class_init scope name p).flags has_copy =
      (class_init scope name p).copy.isSome) ∧
    ((class_init scope name p).copy.isSome =
      (p.copy_constructible && !p.trivially_copy_constructible)) ∧
    (hasFlag (class_init scope name p).flags is_copy_constructible =
      p.copy_constructible) ∧
    (hasFlag (class_init scope name p).flags has_move =
      (class_init scope name p).move.isSome) ∧
    ((class_init scope name p).move.isSome =
      (p.move_constructible && !p.trivially_move_constructible)) ∧
    (hasFlag (class_init scope name p).flags is_move_constructible =
      p.move_constructible) ∧
    (hasFlag (class_init scope name p).flags has_destruct =
      (class_init scope name p).destruct.isSome) ∧
    ((class_init scope name p).destruct.isSome =
      (p.destructible && !p.trivially_destructible)) ∧
    (hasFlag (class_init scope name p).flags is_destructible =
      p.destructible) := by
  rw [class_init_eq]
  rcases p with ⟨sa, aa, tid, bid, cc, tcc, mc, tmc, dc, tdc, sft⟩
  cases bid <;> cases cc <;> cases tcc <;> cases mc <;> cases tmc <;>
    cases dc <;> cases tdc <;> cases sft <;>
    simp [class_flags, hasFlag] <;> decide

/-- Claim C3: when the bound type supports shared ownership
(`enable_shared_from_this`), the class builder sets the
shared-ownership-support flag and installs the keep-alive hook; the hook,
for every host handle, appends exactly one owned reference (with its
release callback) to the host object's auxiliary keep-alive list and
returns `true` when a strong reference can be locked from the
weak-ownership slot, and otherwise returns `false` mutating nothing. -/
theorem shared_from_this_keep_alive (scope name : Nat) (p : TypeProbe)
    (hp : p.shared_from_this = true) :
    hasFlag (class_init scope name p).flags has_shared_from_this = true ∧
    (class_init scope name p).keep_shared_from_this_alive = some () ∧
    (∀ (self : host_object) (sp : Nat), self.weak_slot = some sp →
      keep_shared_from_this_alive_hook self =
        (true, { self with keep_alive_list :=
                   self.keep_alive_list ++ [⟨sp, shared_ptr_deleter⟩] })) ∧
    (∀ self : host_object, self.weak_slot = none →
      keep_shared_from_this_alive_hook self = (false, self)) := by
  refine ⟨?_, ?_, ?_, ?_⟩
  · rw [class_init_eq]
    simp only [class_flags, hp]
    exact hasFlag_or_self _ _ (by decide)
  · rw [class_init_eq]
    simp [hp]
  · intro self sp h
    simp [keep_shared_from_this_alive_hook, h]
  · intro self h
    simp [keep_shared_from_this_alive_hook, h]

/-- Witness for the keep-alive theorem at a concrete probe. -/
theorem shared_from_this_keep_alive_witness :
    hasFlag (class_init 0 1 probe_shared).flags has_shared_from_this = true :=
  (shared_from_this_keep_alive 0 1 probe_shared rfl).1

/-- Claim C4: on a descriptor whose has-type-slots flag is still clear, the
first of the fixed-slot-table / slot-computing-callback traits sets the
flag and nulls the other variant's field, and a later application of the
other variant overwrites only its own field (the final descriptors of both
orders agree: both fields populated, flag set, nothing else touched). -/
theorem slots_trait_interaction (t : type_init_data) (v f : Nat)
    (h : hasFlag t.flags has_type_slots = false) :
    (hasFlag (apply_type_slots t v).flags has_type_slots = true ∧
     (apply_type_slots t v).type_slots_callback = none ∧
     (apply_type_slots t v).type_slots = some v) ∧
    (hasFlag (apply_type_slots_callback t f).flags has_type_slots = true ∧
     (apply_type_slots_callback t f).type_slots = none ∧
     (apply_type_slots_callback t f).type_slots_callback =
       some (SlotsCallback.user f)) ∧
    (apply_type_slots_callback (apply_type_slots t v) f =
      { t with flags := t.flags ||| has_type_slots,
               type_slots := some v,
               type_slots_callback := some (SlotsCallback.user f) }) ∧
    (apply_type_slots (apply_type_slots_callback t f) v =
      { t with flags := t.flags ||| has_type_slots,
               type_slots := some v,
               type_slots_callback := some (SlotsCallback.user f) }) := by
  have h0 : t.flags &&& has_type_slots = 0 := (hasFlag_false_iff _ _).1 h
  have h1 : ¬(t.flags ||| has_type_slots) &&& has_type_slots = 0 := by
    have := hasFlag_or_self t.flags has_type_slots (by decide)
    exact (hasFlag_true_iff _ _).1 this
  refine ⟨⟨?_, ?_, ?_⟩, ⟨?_, ?_, ?_⟩, ?_, ?_⟩ <;>
    simp [apply_type_slots, apply_type_slots_callback, h0, h1,
          hasFlag_or_self _ has_type_slots (by decide : has_type_slots ≠ 0)]

/-- Witness for the slots-trait theorem at a concrete descriptor. -/
theorem slots_trait_interaction_witness :
    hasFlag (apply_type_slots sample_init_data 5).flags has_type_slots =
      true :=
  (slots_trait_interaction sample_init_data 5 7 (by decide)).1.1

theorem length_eq_counts (ts : List tparam) :
    ts.length = count_tp .properBase ts + count_tp .properAlias ts := by
  induction ts with
  | nil => rfl
  | cons h t ih => cases h <;> simp [count_tp, ih] <;> omega

theorem extract_base_count (ts : List tparam) :
    extract_base_ne_t ts = true ↔ count_tp .properBase ts ≠ 0 := by
  induction ts with
  | nil => simp [extract_base_ne_t, count_tp]
  | cons h t ih => cases h <;> simp [extract_base_ne_t, count_tp, ih]

theorem extract_alias_count (ts : List tparam) :
    extract_alias_ne_t ts = true ↔ count_tp .properAlias ts ≠ 0 := by
  induction ts with
  | nil => simp [extract_alias_ne_t, count_tp]
  | cons h t ih => cases h <;> simp [extract_alias_ne_t, count_tp, ih]

theorem class_static_checks_iff (sa aa : Nat) (ts : List tparam) (bc : Bool) :
    class_static_checks sa aa ts bc = true ↔
      (sa < 1 <<< 24 ∧ aa < 1 <<< 8 ∧ count_tp .properBase ts ≤ 1 ∧
       count_tp .properAlias ts ≤ 1 ∧ bc = true) := by
  have hl := length_eq_counts ts
  have hb := extract_base_count ts
  have ha := extract_alias_count ts
  cases bc <;>
    by_cases eb : extract_base_ne_t ts <;>
    by_cases ea : extract_alias_ne_t ts <;>
    simp [class_static_checks, eb, ea, -List.length_eq_zero] at hb ha ⊢ <;>
    rw [hl] <;> omega

/-- Claim C9: class registration is rejected at build time unless the
instance size fits the 24-bit field, the alignment fits the 8-bit field,
at most one base and at most one alias type are supplied, and `T` is not
already claimed by the competing caster mechanism (its `make_caster` is
the base caster); moreover a supplement trait is accepted exactly when its
payload type is plain data (trivially default constructible) with
alignment not exceeding pointer alignment. -/
theorem class_build_static_checks (scope name : Nat) (p : TypeProbe)
    (ts : List tparam) (bc : Bool) (t : type_init_data)
    (i : supplement_info) :
    ((class_build scope name p ts bc []).isSome = true ↔
      (p.size_alias < 1 <<< 24 ∧ p.align_alias < 1 <<< 8 ∧
       count_tp .properBase ts ≤ 1 ∧ count_tp .properAlias ts ≤ 1 ∧
       bc = true)) ∧
    ((type_extra_apply t (.supplementOf i)).isSome = true ↔
      (i.trivially_default_constructible = true ∧ i.align_le_ptr = true)) := by
  constructor
  · have hiff := class_static_checks_iff p.size_alias p.align_alias ts bc
    by_cases hc : class_static_checks p.size_alias p.align_alias ts bc = true
    · simp only [class_build, hc, if_true, List.foldlM, Option.isSome_some]
      exact ⟨fun _ => hiff.mp hc, fun _ => rfl⟩
    · simp only [class_build, if_neg hc, Option.isSome_none]
      constructor
      · intro h
        simp at h
      · intro h
        exact absurd (hiff.mpr h) hc
  · rcases i with ⟨sz, pod, al⟩
    cases pod <;> cases al <;> simp [type_extra_apply, supplement_asserts]

theorem enum_init_inv (scope name size_t align_t type_id : Nat)
    (signed : Bool) :
    enum_descriptor_inv scope signed
      (enum_init scope name size_t align_t type_id signed) := by
  refine ⟨?_, ?_, ?_, ?_, ?_, ?_, ?_, ?_, ?_, rfl, rfl, rfl, rfl, rfl, rfl, rfl⟩ <;>
    · show hasFlag (has_supplement ||| has_type_slots ||| is_copy_constructible |||
        is_move_constructible ||| is_destructible ||| is_final) _ = _
      decide

theorem enum_apply_inv (scope : Nat) (signed : Bool)
    (d d2 : enum_init_data) (e : Extra)
    (h : enum_extra_apply d e = some d2)
    (hd : enum_descriptor_inv scope signed d) :
    enum_descriptor_inv scope signed d2 := by
  obtain ⟨h1, h2, h3, h4, h5, h6, h7, h8, h9, hc, hm, hdt, hcb, hs, hsc, hsg⟩ := hd
  cases e <;> simp [enum_extra_apply] at h
  case docStr s =>
    subst h
    exact ⟨hasFlag_mono _ _ _ h1, hasFlag_mono _ _ _ h2, hasFlag_mono _ _ _ h3,
           hasFlag_mono _ _ _ h4, hasFlag_mono _ _ _ h5, hasFlag_mono _ _ _ h6,
           hasFlag_or_none _ _ _ h7 (by decide),
           hasFlag_or_none _ _ _ h8 (by decide),
           hasFlag_or_none _ _ _ h9 (by decide),
           hc, hm, hdt, hcb, hs, hsc, hsg⟩
  case typeSlots v =>
    subst h
    have hz : ¬d.flags &&& has_type_slots = 0 := (hasFlag_true_iff _ _).1 h2
    simp only [apply_type_slots, if_neg hz]
    exact ⟨h1, h2, h3, h4, h5, h6, h7, h8, h9, hc, hm, hdt, hcb, hs, hsc, hsg⟩
  case dynamicAttr =>
    subst h
    exact ⟨hasFlag_mono _ _ _ h1, hasFlag_mono _ _ _ h2, hasFlag_mono _ _ _ h3,
           hasFlag_mono _ _ _ h4, hasFlag_mono _ _ _ h5, hasFlag_mono _ _ _ h6,
           hasFlag_or_none _ _ _ h7 (by decide),
           hasFlag_or_none _ _ _ h8 (by decide),
           hasFlag_or_none _ _ _ h9 (by decide),
           hc, hm, hdt, hcb, hs, hsc, hsg⟩
  case isArithmetic =>
    subst h
    exact ⟨h1, h2, h3, h4, h5, h6, h7, h8, h9, hc, hm, hdt, hcb, hs, hsc, hsg⟩

theorem enum_apply_slots (d d2 : enum_init_data) (e : Extra)
    (h : enum_extra_apply d e = some d2) (hn : ∀ v, e ≠ .typeSlots v) :
    d2.type_slots = d.type_slots := by
  cases e <;> simp [enum_extra_apply] at h
  case docStr s => subst h; rfl
  case typeSlots v => exact absurd rfl (hn v)
  case dynamicAttr => subst h; rfl
  case isArithmetic => subst h; rfl

theorem enum_fold_inv (scope : Nat) (signed : Bool) :
    ∀ (l : List Extra) (d d2 : enum_init_data),
      List.foldlM enum_extra_apply d l = some d2 →
      enum_descriptor_inv scope signed d → enum_descriptor_inv scope signed d2 := by
  intro l
  induction l with
  | nil =>
      intro d d2 h hd
      simp [List.foldlM] at h
      rwa [← h]
  | cons e l ih =>
      intro d d2 h hd
      simp only [List.foldlM, Option.bind_eq_bind, Option.bind_eq_some] at h
      obtain ⟨d1, he, hf⟩ := h
      exact ih d1 d2 hf (enum_apply_inv scope signed d d1 e he hd)

theorem enum_fold_slots :
    ∀ (l : List Extra) (d d2 : enum_init_data),
      List.foldlM enum_extra_apply d l = some d2 →
      (∀ v, Extra.typeSlots v ∉ l) → d2.type_slots = d.type_slots := by
  intro l
  induction l with
  | nil =>
      intro d d2 h _
      simp [List.foldlM] at h
      rw [← h]
  | cons e l ih =>
      intro d d2 h hn
      simp only [List.foldlM, Option.bind_eq_bind, Option.bind_eq_some] at h
      obtain ⟨d1, he, hf⟩ := h
      have h1 : d1.type_slots = d.type_slots :=
        enum_apply_slots d d1 e he
          (fun v hv => hn v (by rw [hv]; exact List.mem_cons_self _ _))
      have h2 : d2.type_slots = d1.type_slots :=
        ih d1 d2 hf (fun v hv => hn v (List.mem_cons_of_mem _ hv))
      rw [h2, h1]

/-- Claim C5: every enum descriptor the enum builder produces has the
supplement reserved (sized for the enum supplement record), the
slot-computing callback pointing at `nb_enum_prepare` with the fixed slot
table defaulted to null, copy/move/destruct marked as capabilities with no
hook installed, and the final flag set; the supplement's signedness equals
the underlying type's signedness and its scope is the enclosing
registration scope. -/
theorem enum_descriptor_shape (scope name size_t align_t type_id : Nat)
    (signed : Bool) (extra : List Extra) (d : enum_init_data)
    (supp : enum_supplement)
    (h : enum_build scope name size_t align_t type_id signed extra =
      some (d, supp)) :
    hasFlag d.flags has_supplement = true ∧
    d.supplement = some sizeof_enum_supplement ∧
    hasFlag d.flags has_type_slots = true ∧
    d.type_slots_callback = some SlotsCallback.nbEnumPrepare ∧
    hasFlag d.flags is_copy_constructible = true ∧
    hasFlag d.flags is_move_constructible = true ∧
    hasFlag d.flags is_destructible = true ∧
    hasFlag d.flags has_copy = false ∧
    hasFlag d.flags has_move = false ∧
    hasFlag d.flags has_destruct = false ∧
    d.copy = none ∧ d.move = none ∧ d.destruct = none ∧
    hasFlag d.flags is_final = true ∧
    supp.is_signed = signed ∧ supp.scope = some scope ∧
    ((∀ v, Extra.typeSlots v ∉ extra) → d.type_slots = none) := by
  unfold enum_build at h
  cases hf : List.foldlM enum_extra_apply
      (enum_init scope name size_t align_t type_id signed) extra with
  | none => rw [hf] at h; cases h
  | some d0 =>
      rw [hf] at h
      obtain ⟨rfl, rfl⟩ : d0 = d ∧
          ({ is_signed := d0.is_signed, entries := none,
             scope := some d0.scope } : enum_supplement) = supp := by
        constructor <;> cases h <;> rfl
      have hinv := enum_fold_inv scope signed extra _ _ hf
        (enum_init_inv scope name size_t align_t type_id signed)
      obtain ⟨h1, h2, h3, h4, h5, h6, h7, h8, h9, hc, hm, hdt, hcb, hs,
              hsc, hsg⟩ := hinv
      refine ⟨h1, hs, h2, hcb, h3, h4, h5, h7, h8, h9, hc, hm, hdt, h6,
              hsg, by rw [hsc], ?_⟩
      intro hn
      rw [enum_fold_slots extra _ _ hf hn]
      rfl

/-- Witness for the enum-descriptor theorem at a concrete enum build. -/
theorem enum_descriptor_shape_witness :
    hasFlag (enum_init 0 1 4 4 7 true).flags has_supplement = true :=
  (enum_descriptor_shape 0 1 4 4 7 true [] (enum_init 0 1 4 4 7 true)
    { is_signed := true, entries := none, scope := some 0 } rfl).1

end NbClass
